import Mathlib

/-
Verification of the PID controller library (pid_controller.h, a platform
independent C port of the Arduino PID library).

The repository ships only the header `src/C/pid_controller.h`: the struct
`tPIDParam`, the enums `ePIDMode` and `ePIDDirection`, the prototypes of the
stateful operations, and the inline getter/setter functions. The bodies of
`PIDInit`, `PIDCompute`, `PIDModeSet`, `PIDOutputLimitsSet`, the tuning
setters, `PIDControllerDirectionSet` and `PIDSampleTimeSet` live in a
`pid_controller.c` that is not part of the snapshot; those operations are
modelled from the specification (each such definition carries a
`Modelled from the spec:` doc comment). The inline functions of the header
are embedded directly from their source.

Floats of the C struct are modelled as rationals (ℚ); the specification
treats every numeric field as a real number. Stateful C functions taking a
`tPIDParam *` become pure functions from `tPIDParam` to `tPIDParam`
(returning `Bool × tPIDParam` for `PIDCompute`, and `value × tPIDParam` for
the getters, whose bodies perform no write).
-/

namespace PID

/-- The `ePIDMode` enum of pid_controller.h (lines 60-65): MANUAL means the
PID controller is off, AUTOMATIC means it is on. -/
inductive ePIDMode where
  | MANUAL
  | AUTOMATIC
deriving DecidableEq, Repr

/-- The `ePIDDirection` enum of pid_controller.h (lines 67-72): DIRECT means
a positive setpoint gives a positive output, REVERSE a negative output. -/
inductive ePIDDirection where
  | DIRECT
  | REVERSE
deriving DecidableEq, Repr

/-- The `tPIDParam` struct of pid_controller.h (lines 74-144), fields in
source order; `float` fields become ℚ. -/
structure tPIDParam where
  input : ℚ
  lastInput : ℚ
  output : ℚ
  dispKp : ℚ
  dispKi : ℚ
  dispKd : ℚ
  alteredKp : ℚ
  alteredKi : ℚ
  alteredKd : ℚ
  iTerm : ℚ
  sampleTime : ℚ
  outMin : ℚ
  outMax : ℚ
  setpoint : ℚ
  controllerDirection : ePIDDirection
  mode : ePIDMode
deriving DecidableEq, Repr

/-- Modelled from the spec: the clamping step used by the compute step and
the mutators ("Clamp iTerm to [outMin, outMax]", "Clamp output to
[outMin, outMax]"); the implementation file pid_controller.c is absent from
the repository snapshot. Written in the upper-bound-first conditional style
of the C family the header comes from. -/
def clamp (x lo hi : ℚ) : ℚ :=
  if x > hi then hi
  else if x < lo then lo
  else x

/-- Modelled from the spec: the sign carried by the internal gains,
"positive for DIRECT, negative for REVERSE" ("internal gains carry the
direction's sign"); pid_controller.c is absent from the snapshot. -/
def directionSign (d : ePIDDirection) : ℚ :=
  match d with
  | .DIRECT => 1
  | .REVERSE => -1

/-- Modelled from the spec: the shared effect of the tuning setters,
"updates the corresponding displayed gain(s) and recomputes internal gains
from displayed gains, direction, and current sample time"
(Ki' = Ki·dt, Kd' = Kd/dt, each times the direction's sign);
pid_controller.c is absent from the snapshot. -/
def withTunings (pid : tPIDParam) (kp ki kd : ℚ) : tPIDParam :=
  let s := directionSign pid.controllerDirection
  { pid with
    dispKp := kp
    dispKi := ki
    dispKd := kd
    alteredKp := s * kp
    alteredKi := s * (ki * pid.sampleTime)
    alteredKd := s * (kd / pid.sampleTime) }

/-- Modelled from the spec: `PIDInit` (prototype at pid_controller.h lines
173-175) "stores displayed gains; derives internal gains using direction and
sample time; clamps output bounds; sets iTerm and output via internal
initialization (iTerm seeded from current output); sets
lastInput = input = 0 ... mode and direction as given"; pid_controller.c is
absent from the snapshot. The fresh state starts with output 0 and iTerm
seeded from that output, clamped to the output bounds. -/
def PIDInit (kp ki kd sampleTimeSeconds minOutput maxOutput : ℚ)
    (mode : ePIDMode) (controllerDirection : ePIDDirection) : tPIDParam :=
  let s := directionSign controllerDirection
  { input := 0
    lastInput := 0
    output := 0
    dispKp := kp
    dispKi := ki
    dispKd := kd
    alteredKp := s * kp
    alteredKi := s * (ki * sampleTimeSeconds)
    alteredKd := s * (kd / sampleTimeSeconds)
    iTerm := clamp 0 minOutput maxOutput
    sampleTime := sampleTimeSeconds
    outMin := minOutput
    outMax := maxOutput
    setpoint := 0
    controllerDirection := controllerDirection
    mode := mode }

/-- Modelled from the spec: `PIDCompute` (prototype at pid_controller.h line
188). "If mode is MANUAL, do nothing to output; report false. Otherwise:
error = setpoint − input; iTerm += Ki'·error; clamp iTerm to
[outMin, outMax]; dInput = input − lastInput;
output = Kp'·error + iTerm − Kd'·dInput; clamp output to [outMin, outMax];
lastInput = input; report true." pid_controller.c is absent from the
snapshot. -/
def PIDCompute (pid : tPIDParam) : Bool × tPIDParam :=
  match pid.mode with
  | .MANUAL => (false, pid)
  | .AUTOMATIC =>
    let error := pid.setpoint - pid.input
    let iTermNew := clamp (pid.iTerm + pid.alteredKi * error) pid.outMin pid.outMax
    let dInput := pid.input - pid.lastInput
    let outputNew :=
      clamp (pid.alteredKp * error + iTermNew - pid.alteredKd * dInput) pid.outMin pid.outMax
    (true, { pid with iTerm := iTermNew, output := outputNew, lastInput := pid.input })

/-- The state after one `PIDCompute` call, discarding the boolean report. -/
def computeState (pid : tPIDParam) : tPIDParam := (PIDCompute pid).2

/-- Modelled from the spec: `PIDModeSet` (prototype at pid_controller.h line
203). "Transition MANUAL → AUTOMATIC performs a bump-less re-initialization:
iTerm is reset to the current output value and lastInput is reset to the
current input" (with iTerm clamped to the output bounds); "Transition
AUTOMATIC → MANUAL or no-op transitions have no side effect beyond recording
the new mode." pid_controller.c is absent from the snapshot. -/
def PIDModeSet (pid : tPIDParam) (mode : ePIDMode) : tPIDParam :=
  if pid.mode = .MANUAL ∧ mode = .AUTOMATIC then
    { pid with
      iTerm := clamp pid.output pid.outMin pid.outMax
      lastInput := pid.input
      mode := mode }
  else
    { pid with mode := mode }

/-- Modelled from the spec: `PIDOutputLimitsSet` (prototype at
pid_controller.h line 217). "Updates outMin/outMax; immediately re-clamps
the current output and iTerm into the new range"; "the reference behavior
applies the new limits as given without reordering them". pid_controller.c
is absent from the snapshot. -/
def PIDOutputLimitsSet (pid : tPIDParam) (min max : ℚ) : tPIDParam :=
  { pid with
    outMin := min
    outMax := max
    output := clamp pid.output min max
    iTerm := clamp pid.iTerm min max }

/-- Modelled from the spec: `PIDTuningsSet` (prototype at pid_controller.h
line 231). "Each gain ≥ 0 (negative gains are rejected — ignored, not
applied)"; on valid gains it stores them and recomputes the internal gains.
pid_controller.c is absent from the snapshot. -/
def PIDTuningsSet (pid : tPIDParam) (kp ki kd : ℚ) : tPIDParam :=
  if kp < 0 ∨ ki < 0 ∨ kd < 0 then pid
  else withTunings pid kp ki kd

/-- Modelled from the spec: `PIDTuningKpSet` (prototype at pid_controller.h
line 243); a negative gain is ignored, a non-negative one replaces dispKp
and the internal gains are recomputed. pid_controller.c is absent from the
snapshot. -/
def PIDTuningKpSet (pid : tPIDParam) (kp : ℚ) : tPIDParam :=
  if kp < 0 then pid else withTunings pid kp pid.dispKi pid.dispKd

/-- Modelled from the spec: `PIDTuningKiSet` (prototype at pid_controller.h
line 255); a negative gain is ignored, a non-negative one replaces dispKi
and the internal gains are recomputed. pid_controller.c is absent from the
snapshot. -/
def PIDTuningKiSet (pid : tPIDParam) (ki : ℚ) : tPIDParam :=
  if ki < 0 then pid else withTunings pid pid.dispKp ki pid.dispKd

/-- Modelled from the spec: `PIDTuningKdSet` (prototype at pid_controller.h
line 267); a negative gain is ignored, a non-negative one replaces dispKd
and the internal gains are recomputed. pid_controller.c is absent from the
snapshot. -/
def PIDTuningKdSet (pid : tPIDParam) (kd : ℚ) : tPIDParam :=
  if kd < 0 then pid else withTunings pid pid.dispKp pid.dispKi kd

/-- Modelled from the spec: `PIDControllerDirectionSet` (prototype at
pid_controller.h line 281). "Flips the sign of all three internal gains in
place ... without altering displayed gains, and records the new direction",
kept consistent with the data-model invariant "internal gains are always
consistent with (displayed gains × direction × sampleTime) — recomputed
whenever gains, direction, or sample time change". pid_controller.c is
absent from the snapshot. -/
def PIDControllerDirectionSet (pid : tPIDParam) (controllerDirection : ePIDDirection) :
    tPIDParam :=
  let s := directionSign controllerDirection
  { pid with
    alteredKp := s * pid.dispKp
    alteredKi := s * (pid.dispKi * pid.sampleTime)
    alteredKd := s * (pid.dispKd / pid.sampleTime)
    controllerDirection := controllerDirection }

/-- Modelled from the spec: `PIDSampleTimeSet` (prototype at
pid_controller.h line 293). "Rescales Ki' and Kd' by the ratio of
new-to-old sample time"; an invalid sample time is a caller precondition,
"not guarded internally". pid_controller.c is absent from the snapshot. -/
def PIDSampleTimeSet (pid : tPIDParam) (sampleTimeSeconds : ℚ) : tPIDParam :=
  let ratio := sampleTimeSeconds / pid.sampleTime
  { pid with
    alteredKi := pid.alteredKi * ratio
    alteredKd := pid.alteredKd / ratio
    sampleTime := sampleTimeSeconds }

/-- `PIDSetpointSet` (pid_controller.h lines 309-310):
`pid->setpoint = setpoint;`. -/
def PIDSetpointSet (pid : tPIDParam) (setpoint : ℚ) : tPIDParam :=
  { pid with setpoint := setpoint }

/-- `PIDInputSet` (pid_controller.h lines 323-324): `pid->input = input;`. -/
def PIDInputSet (pid : tPIDParam) (input : ℚ) : tPIDParam :=
  { pid with input := input }

/-- `PIDOutputGet` (pid_controller.h lines 336-337): `return pid->output;`,
no write to the struct. -/
def PIDOutputGet (pid : tPIDParam) : ℚ × tPIDParam := (pid.output, pid)

/-- `PIDKpGet` (pid_controller.h lines 349-350): `return pid->dispKp;`,
no write to the struct. -/
def PIDKpGet (pid : tPIDParam) : ℚ × tPIDParam := (pid.dispKp, pid)

/-- `PIDKiGet` (pid_controller.h lines 362-363): `return pid->dispKi;`,
no write to the struct. -/
def PIDKiGet (pid : tPIDParam) : ℚ × tPIDParam := (pid.dispKi, pid)

/-- `PIDKdGet` (pid_controller.h lines 375-376): `return pid->dispKd;`,
no write to the struct. -/
def PIDKdGet (pid : tPIDParam) : ℚ × tPIDParam := (pid.dispKd, pid)

/-- `PIDModeGet` (pid_controller.h lines 388-389): `return pid->mode;`,
no write to the struct. -/
def PIDModeGet (pid : tPIDParam) : ePIDMode × tPIDParam := (pid.mode, pid)

/-- `PIDDirectionGet` (pid_controller.h lines 401-402):
`return pid->controllerDirection;`, no write to the struct. -/
def PIDDirectionGet (pid : tPIDParam) : ePIDDirection × tPIDParam :=
  (pid.controllerDirection, pid)

/-- The state after one `PIDOutputGet` call, discarding the returned value. -/
def getOutputState (pid : tPIDParam) : tPIDParam := (PIDOutputGet pid).2

/-- With ordered bounds, `clamp` lands in the closed interval. -/
theorem clamp_bounds (x lo hi : ℚ) (h : lo ≤ hi) :
    lo ≤ clamp x lo hi ∧ clamp x lo hi ≤ hi := by
  unfold clamp
  split_ifs with h1 h2 <;> constructor <;> linarith

/-- A compute call never changes the mode. -/
theorem computeState_mode (pid : tPIDParam) : (computeState pid).mode = pid.mode := by
  cases pid with
  | mk i li o kp ki kd akp aki akd it st mn mx sp dir md => cases md <;> rfl

/-- A compute call never changes the lower output bound. -/
theorem computeState_outMin (pid : tPIDParam) : (computeState pid).outMin = pid.outMin := by
  cases pid with
  | mk i li o kp ki kd akp aki akd it st mn mx sp dir md => cases md <;> rfl

/-- A compute call never changes the upper output bound. -/
theorem computeState_outMax (pid : tPIDParam) : (computeState pid).outMax = pid.outMax := by
  cases pid with
  | mk i li o kp ki kd akp aki akd it st mn mx sp dir md => cases md <;> rfl

/-- Iterated compute calls change neither mode nor output bounds. -/
theorem computeState_iterate_frame (pid : tPIDParam) (n : ℕ) :
    (computeState^[n] pid).mode = pid.mode ∧
    (computeState^[n] pid).outMin = pid.outMin ∧
    (computeState^[n] pid).outMax = pid.outMax := by
  induction n with
  | zero => exact ⟨rfl, rfl, rfl⟩
  | succ k ih =>
    rw [Function.iterate_succ_apply']
    exact ⟨(computeState_mode _).trans ih.1,
      (computeState_outMin _).trans ih.2.1,
      (computeState_outMax _).trans ih.2.2⟩

/-- One compute step in AUTOMATIC mode puts iTerm and output inside the
(pre-state) output bounds. -/
theorem compute_step_bounds (pid : tPIDParam) (h1 : pid.mode = .AUTOMATIC)
    (h2 : pid.outMin ≤ pid.outMax) :
    pid.outMin ≤ (computeState pid).iTerm ∧ (computeState pid).iTerm ≤ pid.outMax ∧
    pid.outMin ≤ (computeState pid).output ∧ (computeState pid).output ≤ pid.outMax := by
  simp only [computeState, PIDCompute, h1]
  exact ⟨(clamp_bounds _ _ _ h2).1, (clamp_bounds _ _ _ h2).2,
    (clamp_bounds _ _ _ h2).1, (clamp_bounds _ _ _ h2).2⟩

/-- In MANUAL mode a compute call leaves the whole state untouched. -/
theorem computeState_manual (pid : tPIDParam) (h : pid.mode = .MANUAL) :
    computeState pid = pid := by
  simp only [computeState, PIDCompute, h]

/-- C1: for every controller state with ordered output bounds and every
sequence of PIDCompute calls that run the algorithm (mode AUTOMATIC), after
each call both the output field and the iTerm field lie within the closed
interval [outMin, outMax]. -/
theorem c1_compute_clamping (pid : tPIDParam) (n : ℕ) (h1 : pid.mode = .AUTOMATIC)
    (h2 : pid.outMin ≤ pid.outMax) :
    (computeState^[n + 1] pid).outMin ≤ (computeState^[n + 1] pid).iTerm ∧
    (computeState^[n + 1] pid).iTerm ≤ (computeState^[n + 1] pid).outMax ∧
    (computeState^[n + 1] pid).outMin ≤ (computeState^[n + 1] pid).output ∧
    (computeState^[n + 1] pid).output ≤ (computeState^[n + 1] pid).outMax := by
  rw [Function.iterate_succ_apply', computeState_outMin, computeState_outMax]
  have hframe := computeState_iterate_frame pid n
  have hm : (computeState^[n] pid).mode = .AUTOMATIC := hframe.1.trans h1
  have hb : (computeState^[n] pid).outMin ≤ (computeState^[n] pid).outMax := by
    rw [hframe.2.1, hframe.2.2]; exact h2
  exact compute_step_bounds _ hm hb

/-- Witness for C1 at a concrete initial state and one compute call. -/
theorem c1_compute_clamping_witness :
    (computeState^[0 + 1] (PIDInit 2 (1/2) 1 1 0 255 .AUTOMATIC .DIRECT)).outMin ≤
      (computeState^[0 + 1] (PIDInit 2 (1/2) 1 1 0 255 .AUTOMATIC .DIRECT)).iTerm ∧
    (computeState^[0 + 1] (PIDInit 2 (1/2) 1 1 0 255 .AUTOMATIC .DIRECT)).iTerm ≤
      (computeState^[0 + 1] (PIDInit 2 (1/2) 1 1 0 255 .AUTOMATIC .DIRECT)).outMax ∧
    (computeState^[0 + 1] (PIDInit 2 (1/2) 1 1 0 255 .AUTOMATIC .DIRECT)).outMin ≤
      (computeState^[0 + 1] (PIDInit 2 (1/2) 1 1 0 255 .AUTOMATIC .DIRECT)).output ∧
    (computeState^[0 + 1] (PIDInit 2 (1/2) 1 1 0 255 .AUTOMATIC .DIRECT)).output ≤
      (computeState^[0 + 1] (PIDInit 2 (1/2) 1 1 0 255 .AUTOMATIC .DIRECT)).outMax :=
  c1_compute_clamping (PIDInit 2 (1/2) 1 1 0 255 .AUTOMATIC .DIRECT) 0 rfl
    (by norm_num [PIDInit])

/-- C2: PIDCompute reports true exactly when the mode is AUTOMATIC; in
MANUAL mode every call of any length-n call sequence reports false and the
output field never changes. -/
theorem c2_manual_inactive (pid : tPIDParam) (n : ℕ) :
    ((PIDCompute pid).1 = true ↔ pid.mode = .AUTOMATIC) ∧
    (pid.mode = .MANUAL →
      (PIDCompute (computeState^[n] pid)).1 = false ∧
      (computeState^[n] pid).output = pid.output) := by
  constructor
  · cases hm : pid.mode
    · simp [PIDCompute, hm]
    · simp [PIDCompute, hm]
  · intro h
    have hfix : computeState^[n] pid = pid :=
      Function.iterate_fixed (computeState_manual pid h) n
    rw [hfix]
    simp [PIDCompute, h]

/-- Witness for C2 at a concrete MANUAL state and two compute calls. -/
theorem c2_manual_inactive_witness :
    (PIDCompute (computeState^[2] (PIDInit 2 (1/2) 1 1 0 255 .MANUAL .DIRECT))).1 = false ∧
    (computeState^[2] (PIDInit 2 (1/2) 1 1 0 255 .MANUAL .DIRECT)).output =
      (PIDInit 2 (1/2) 1 1 0 255 .MANUAL .DIRECT).output :=
  (c2_manual_inactive (PIDInit 2 (1/2) 1 1 0 255 .MANUAL .DIRECT) 2).2 rfl

/-- C3: in AUTOMATIC mode one PIDCompute call performs exactly
error = setpoint − input, iTerm := clamp(iTerm + Ki'·error, outMin, outMax),
dInput = input − lastInput,
output := clamp(Kp'·error + iTerm − Kd'·dInput, outMin, outMax),
lastInput := input; and the two-step scenario from
Initialize(2, 0.5, 1, 1.0s, 0, 255, AUTOMATIC, DIRECT) with setpoint 100
yields outputs 250 then 125. -/
theorem c3_compute_algorithm (pid : tPIDParam) (h : pid.mode = .AUTOMATIC) :
    (PIDCompute pid).1 = true ∧
    (PIDCompute pid).2 =
      { pid with
        iTerm := clamp (pid.iTerm + pid.alteredKi * (pid.setpoint - pid.input))
          pid.outMin pid.outMax
        output := clamp
          (pid.alteredKp * (pid.setpoint - pid.input)
            + clamp (pid.iTerm + pid.alteredKi * (pid.setpoint - pid.input))
                pid.outMin pid.outMax
            - pid.alteredKd * (pid.input - pid.lastInput)) pid.outMin pid.outMax
        lastInput := pid.input } ∧
    (PIDOutputGet (computeState (PIDInputSet (PIDSetpointSet
      (PIDInit 2 (1/2) 1 1 0 255 .AUTOMATIC .DIRECT) 100) 0))).1 = 250 ∧
    (PIDOutputGet (computeState (PIDInputSet (computeState (PIDInputSet (PIDSetpointSet
      (PIDInit 2 (1/2) 1 1 0 255 .AUTOMATIC .DIRECT) 100) 0)) 50))).1 = 125 := by
  refine ⟨?_, ?_, ?_, ?_⟩
  · simp [PIDCompute, h]
  · simp [PIDCompute, h]
  · norm_num [PIDInit, PIDSetpointSet, PIDInputSet, computeState, PIDCompute, clamp,
      PIDOutputGet, directionSign]
  · norm_num [PIDInit, PIDSetpointSet, PIDInputSet, computeState, PIDCompute, clamp,
      PIDOutputGet, directionSign]

/-- Witness for C3 at the scenario's initial state. -/
theorem c3_compute_algorithm_witness :
    (PIDCompute (PIDInit 2 (1/2) 1 1 0 255 .AUTOMATIC .DIRECT)).1 = true ∧
    (PIDOutputGet (computeState (PIDInputSet (PIDSetpointSet
      (PIDInit 2 (1/2) 1 1 0 255 .AUTOMATIC .DIRECT) 100) 0))).1 = 250 ∧
    (PIDOutputGet (computeState (PIDInputSet (computeState (PIDInputSet (PIDSetpointSet
      (PIDInit 2 (1/2) 1 1 0 255 .AUTOMATIC .DIRECT) 100) 0)) 50))).1 = 125 :=
  ⟨(c3_compute_algorithm (PIDInit 2 (1/2) 1 1 0 255 .AUTOMATIC .DIRECT) rfl).1,
   (c3_compute_algorithm (PIDInit 2 (1/2) 1 1 0 255 .AUTOMATIC .DIRECT) rfl).2.2.1,
   (c3_compute_algorithm (PIDInit 2 (1/2) 1 1 0 255 .AUTOMATIC .DIRECT) rfl).2.2.2⟩

/-- C4: PIDModeSet on the MANUAL → AUTOMATIC transition seeds iTerm from the
current output (clamped to the output bounds) and lastInput from the current
input; every other transition records the new mode and changes nothing
else. -/
theorem c4_mode_set (pid : tPIDParam) (mode : ePIDMode) :
    (pid.mode = .MANUAL ∧ mode = .AUTOMATIC →
      PIDModeSet pid mode =
        { pid with
          iTerm := clamp pid.output pid.outMin pid.outMax
          lastInput := pid.input
          mode := mode }) ∧
    (¬ (pid.mode = .MANUAL ∧ mode = .AUTOMATIC) →
      PIDModeSet pid mode = { pid with mode := mode }) := by
  constructor
  · intro h
    unfold PIDModeSet
    rw [if_pos h]
  · intro h
    unfold PIDModeSet
    rw [if_neg h]

/-- Witness for C4: the bump-less transition at a concrete MANUAL state and
the plain AUTOMATIC → MANUAL transition at a concrete AUTOMATIC state. -/
theorem c4_mode_set_witness :
    PIDModeSet (PIDInit 2 (1/2) 1 1 0 255 .MANUAL .DIRECT) .AUTOMATIC =
      { PIDInit 2 (1/2) 1 1 0 255 .MANUAL .DIRECT with
        iTerm := clamp (PIDInit 2 (1/2) 1 1 0 255 .MANUAL .DIRECT).output
          (PIDInit 2 (1/2) 1 1 0 255 .MANUAL .DIRECT).outMin
          (PIDInit 2 (1/2) 1 1 0 255 .MANUAL .DIRECT).outMax
        lastInput := (PIDInit 2 (1/2) 1 1 0 255 .MANUAL .DIRECT).input
        mode := .AUTOMATIC } ∧
    PIDModeSet (PIDInit 2 (1/2) 1 1 0 255 .AUTOMATIC .DIRECT) .MANUAL =
      { PIDInit 2 (1/2) 1 1 0 255 .AUTOMATIC .DIRECT with mode := .MANUAL } :=
  ⟨(c4_mode_set (PIDInit 2 (1/2) 1 1 0 255 .MANUAL .DIRECT) .AUTOMATIC).1 ⟨rfl, rfl⟩,
   (c4_mode_set (PIDInit 2 (1/2) 1 1 0 255 .AUTOMATIC .DIRECT) .MANUAL).2 (by simp)⟩

/-- C5: PIDOutputLimitsSet stores min and max exactly as given (no
reordering) and applies the clamp to the current output and iTerm; when the
pair is ordered, both land inside the new [outMin, outMax] interval. -/
theorem c5_output_limits (pid : tPIDParam) (mn mx : ℚ) :
    (PIDOutputLimitsSet pid mn mx).outMin = mn ∧
    (PIDOutputLimitsSet pid mn mx).outMax = mx ∧
    (PIDOutputLimitsSet pid mn mx).output = clamp pid.output mn mx ∧
    (PIDOutputLimitsSet pid mn mx).iTerm = clamp pid.iTerm mn mx ∧
    (mn ≤ mx →
      mn ≤ (PIDOutputLimitsSet pid mn mx).output ∧
      (PIDOutputLimitsSet pid mn mx).output ≤ mx ∧
      mn ≤ (PIDOutputLimitsSet pid mn mx).iTerm ∧
      (PIDOutputLimitsSet pid mn mx).iTerm ≤ mx) := by
  refine ⟨rfl, rfl, rfl, rfl, fun h => ?_⟩
  exact ⟨(clamp_bounds _ _ _ h).1, (clamp_bounds _ _ _ h).2,
    (clamp_bounds _ _ _ h).1, (clamp_bounds _ _ _ h).2⟩

/-- Witness for C5 at concrete tightened limits 10 and 20. -/
theorem c5_output_limits_witness :
    10 ≤ (PIDOutputLimitsSet (PIDInit 2 (1/2) 1 1 0 255 .AUTOMATIC .DIRECT) 10 20).output ∧
    (PIDOutputLimitsSet (PIDInit 2 (1/2) 1 1 0 255 .AUTOMATIC .DIRECT) 10 20).output ≤ 20 ∧
    10 ≤ (PIDOutputLimitsSet (PIDInit 2 (1/2) 1 1 0 255 .AUTOMATIC .DIRECT) 10 20).iTerm ∧
    (PIDOutputLimitsSet (PIDInit 2 (1/2) 1 1 0 255 .AUTOMATIC .DIRECT) 10 20).iTerm ≤ 20 :=
  (c5_output_limits (PIDInit 2 (1/2) 1 1 0 255 .AUTOMATIC .DIRECT) 10 20).2.2.2.2
    (by norm_num)

/-- C6: a tuning setter given a negative gain leaves the whole state (hence
the corresponding displayed and internal gain) unchanged; given non-negative
gains it stores the displayed gain(s) and recomputes the internal gains from
displayed gains, direction, and sample time. -/
theorem c6_tuning_setters (pid : tPIDParam) (kp ki kd k : ℚ) :
    ((kp < 0 ∨ ki < 0 ∨ kd < 0) → PIDTuningsSet pid kp ki kd = pid) ∧
    (k < 0 →
      PIDTuningKpSet pid k = pid ∧ PIDTuningKiSet pid k = pid ∧ PIDTuningKdSet pid k = pid) ∧
    (0 ≤ kp → 0 ≤ ki → 0 ≤ kd →
      (PIDTuningsSet pid kp ki kd).dispKp = kp ∧
      (PIDTuningsSet pid kp ki kd).dispKi = ki ∧
      (PIDTuningsSet pid kp ki kd).dispKd = kd ∧
      (PIDTuningsSet pid kp ki kd).alteredKp =
        directionSign pid.controllerDirection * kp ∧
      (PIDTuningsSet pid kp ki kd).alteredKi =
        directionSign pid.controllerDirection * (ki * pid.sampleTime) ∧
      (PIDTuningsSet pid kp ki kd).alteredKd =
        directionSign pid.controllerDirection * (kd / pid.sampleTime)) ∧
    (0 ≤ k →
      PIDTuningKpSet pid k = withTunings pid k pid.dispKi pid.dispKd ∧
      PIDTuningKiSet pid k = withTunings pid pid.dispKp k pid.dispKd ∧
      PIDTuningKdSet pid k = withTunings pid pid.dispKp pid.dispKi k) := by
  refine ⟨fun h => ?_, fun h => ?_, fun h1 h2 h3 => ?_, fun h => ?_⟩
  · unfold PIDTuningsSet
    rw [if_pos h]
  · refine ⟨?_, ?_, ?_⟩ <;>
      (first
        | (unfold PIDTuningKpSet; rw [if_pos h])
        | (unfold PIDTuningKiSet; rw [if_pos h])
        | (unfold PIDTuningKdSet; rw [if_pos h]))
  · have hcond : ¬ (kp < 0 ∨ ki < 0 ∨ kd < 0) := by
      push_neg
      exact ⟨h1, h2, h3⟩
    unfold PIDTuningsSet
    rw [if_neg hcond]
    exact ⟨rfl, rfl, rfl, rfl, rfl, rfl⟩
  · have hk : ¬ k < 0 := not_lt.mpr h
    refine ⟨?_, ?_, ?_⟩ <;>
      (first
        | (unfold PIDTuningKpSet; rw [if_neg hk])
        | (unfold PIDTuningKiSet; rw [if_neg hk])
        | (unfold PIDTuningKdSet; rw [if_neg hk]))

/-- Witness for C6: a negative gain is ignored by PIDTuningsSet and
PIDTuningKpSet, and non-negative gains are stored and rescaled. -/
theorem c6_tuning_setters_witness :
    PIDTuningsSet (PIDInit 2 (1/2) 1 1 0 255 .AUTOMATIC .DIRECT) (-1) 1 1 =
      PIDInit 2 (1/2) 1 1 0 255 .AUTOMATIC .DIRECT ∧
    PIDTuningKpSet (PIDInit 2 (1/2) 1 1 0 255 .AUTOMATIC .DIRECT) (-1) =
      PIDInit 2 (1/2) 1 1 0 255 .AUTOMATIC .DIRECT ∧
    (PIDTuningsSet (PIDInit 2 (1/2) 1 1 0 255 .AUTOMATIC .DIRECT) 3 4 5).dispKp = 3 ∧
    PIDTuningKpSet (PIDInit 2 (1/2) 1 1 0 255 .AUTOMATIC .DIRECT) 7 =
      withTunings (PIDInit 2 (1/2) 1 1 0 255 .AUTOMATIC .DIRECT) 7
        (PIDInit 2 (1/2) 1 1 0 255 .AUTOMATIC .DIRECT).dispKi
        (PIDInit 2 (1/2) 1 1 0 255 .AUTOMATIC .DIRECT).dispKd :=
  ⟨(c6_tuning_setters (PIDInit 2 (1/2) 1 1 0 255 .AUTOMATIC .DIRECT) (-1) 1 1 0).1
      (Or.inl (by norm_num)),
   ((c6_tuning_setters (PIDInit 2 (1/2) 1 1 0 255 .AUTOMATIC .DIRECT) 0 0 0 (-1)).2.1
      (by norm_num)).1,
   ((c6_tuning_setters (PIDInit 2 (1/2) 1 1 0 255 .AUTOMATIC .DIRECT) 3 4 5 0).2.2.1
      (by norm_num) (by norm_num) (by norm_num)).1,
   ((c6_tuning_setters (PIDInit 2 (1/2) 1 1 0 255 .AUTOMATIC .DIRECT) 0 0 0 7).2.2.2
      (by norm_num)).1⟩

/-- C7 as stated is false: after a direction change the internal integral
gain is the displayed gain times the direction sign times the sample time,
not the displayed gain times the sign alone. At sample time 2 with
dispKi = 1/2 and a DIRECT no-op direction change, alteredKi is 1 while
dispKi times the sign is 1/2. -/
theorem c7_direction_counterexample :
    ¬ ((PIDControllerDirectionSet
          (PIDInit 2 (1/2) 1 2 0 255 .AUTOMATIC .DIRECT) .DIRECT).alteredKi =
        directionSign .DIRECT *
          (PIDControllerDirectionSet
            (PIDInit 2 (1/2) 1 2 0 255 .AUTOMATIC .DIRECT) .DIRECT).dispKi) := by
  norm_num [PIDControllerDirectionSet, PIDInit, directionSign]

/-- C7 amended: PIDControllerDirectionSet records the new direction and
recomputes each internal gain as the displayed gain times the direction's
sign (positive for DIRECT, negative for REVERSE) with the sample-time
scaling kept (Kp' = sign·Kp, Ki' = sign·Ki·dt, Kd' = sign·Kd/dt), leaving
all three displayed gains unchanged; the gain getters return the same
values before and after any direction change. -/
theorem c7_direction_set (pid : tPIDParam) (d : ePIDDirection) :
    (PIDControllerDirectionSet pid d).controllerDirection = d ∧
    (PIDControllerDirectionSet pid d).dispKp = pid.dispKp ∧
    (PIDControllerDirectionSet pid d).dispKi = pid.dispKi ∧
    (PIDControllerDirectionSet pid d).dispKd = pid.dispKd ∧
    (PIDControllerDirectionSet pid d).alteredKp = directionSign d * pid.dispKp ∧
    (PIDControllerDirectionSet pid d).alteredKi =
      directionSign d * (pid.dispKi * pid.sampleTime) ∧
    (PIDControllerDirectionSet pid d).alteredKd =
      directionSign d * (pid.dispKd / pid.sampleTime) ∧
    (PIDKpGet (PIDControllerDirectionSet pid d)).1 = (PIDKpGet pid).1 ∧
    (PIDKiGet (PIDControllerDirectionSet pid d)).1 = (PIDKiGet pid).1 ∧
    (PIDKdGet (PIDControllerDirectionSet pid d)).1 = (PIDKdGet pid).1 :=
  ⟨rfl, rfl, rfl, rfl, rfl, rfl, rfl, rfl, rfl, rfl⟩

/-- C8: with positive old and new sample times, PIDSampleTimeSet multiplies
Ki' by dt2/dt1, multiplies Kd' by dt1/dt2, stores dt2 as the sample time,
and leaves the displayed gains unchanged. -/
theorem c8_sample_time_rescaling (pid : tPIDParam) (dt2 : ℚ)
    (h1 : 0 < pid.sampleTime) (h2 : 0 < dt2) :
    (PIDSampleTimeSet pid dt2).alteredKi = pid.alteredKi * (dt2 / pid.sampleTime) ∧
    (PIDSampleTimeSet pid dt2).alteredKd = pid.alteredKd * (pid.sampleTime / dt2) ∧
    (PIDSampleTimeSet pid dt2).sampleTime = dt2 ∧
    (PIDSampleTimeSet pid dt2).dispKp = pid.dispKp ∧
    (PIDSampleTimeSet pid dt2).dispKi = pid.dispKi ∧
    (PIDSampleTimeSet pid dt2).dispKd = pid.dispKd := by
  refine ⟨rfl, ?_, rfl, rfl, rfl, rfl⟩
  show pid.alteredKd / (dt2 / pid.sampleTime) = pid.alteredKd * (pid.sampleTime / dt2)
  rw [div_div_eq_mul_div, mul_div_assoc]

/-- Witness for C8: moving the sample time from 1 to 2 halves Kd'. -/
theorem c8_sample_time_rescaling_witness :
    (PIDSampleTimeSet (PIDInit 2 (1/2) 1 1 0 255 .AUTOMATIC .DIRECT) 2).alteredKd =
      (PIDInit 2 (1/2) 1 1 0 255 .AUTOMATIC .DIRECT).alteredKd *
        ((PIDInit 2 (1/2) 1 1 0 255 .AUTOMATIC .DIRECT).sampleTime / 2) ∧
    (PIDSampleTimeSet (PIDInit 2 (1/2) 1 1 0 255 .AUTOMATIC .DIRECT) 2).sampleTime = 2 :=
  ⟨(c8_sample_time_rescaling (PIDInit 2 (1/2) 1 1 0 255 .AUTOMATIC .DIRECT) 2
      (by norm_num [PIDInit]) (by norm_num)).2.1,
   (c8_sample_time_rescaling (PIDInit 2 (1/2) 1 1 0 255 .AUTOMATIC .DIRECT) 2
      (by norm_num [PIDInit]) (by norm_num)).2.2.1⟩

/-- C9: the six getters are pure reads: each returns its state argument
unchanged, and PIDOutputGet repeated any number of times without an
intervening mutator keeps returning the original output value. -/
theorem c9_getters_pure (pid : tPIDParam) (n : ℕ) :
    (PIDOutputGet pid).2 = pid ∧
    (PIDKpGet pid).2 = pid ∧
    (PIDKiGet pid).2 = pid ∧
    (PIDKdGet pid).2 = pid ∧
    (PIDModeGet pid).2 = pid ∧
    (PIDDirectionGet pid).2 = pid ∧
    (PIDOutputGet (getOutputState^[n] pid)).1 = (PIDOutputGet pid).1 := by
  refine ⟨rfl, rfl, rfl, rfl, rfl, rfl, ?_⟩
  rw [Function.iterate_fixed (rfl : getOutputState pid = pid) n]

/-- C10: PIDSetpointSet writes only the setpoint field and PIDInputSet
writes only the input field, each leaving every other field unchanged; in
particular several PIDInputSet calls before a compute call influence it only
through the last value written. -/
theorem c10_setters_frame (pid : tPIDParam) (v a b : ℚ) :
    (PIDSetpointSet pid v).setpoint = v ∧
    (PIDSetpointSet pid v).input = pid.input ∧
    (PIDSetpointSet pid v).lastInput = pid.lastInput ∧
    (PIDSetpointSet pid v).output = pid.output ∧
    (PIDSetpointSet pid v).dispKp = pid.dispKp ∧
    (PIDSetpointSet pid v).dispKi = pid.dispKi ∧
    (PIDSetpointSet pid v).dispKd = pid.dispKd ∧
    (PIDSetpointSet pid v).alteredKp = pid.alteredKp ∧
    (PIDSetpointSet pid v).alteredKi = pid.alteredKi ∧
    (PIDSetpointSet pid v).alteredKd = pid.alteredKd ∧
    (PIDSetpointSet pid v).iTerm = pid.iTerm ∧
    (PIDSetpointSet pid v).sampleTime = pid.sampleTime ∧
    (PIDSetpointSet pid v).outMin = pid.outMin ∧
    (PIDSetpointSet pid v).outMax = pid.outMax ∧
    (PIDSetpointSet pid v).controllerDirection = pid.controllerDirection ∧
    (PIDSetpointSet pid v).mode = pid.mode ∧
    (PIDInputSet pid v).input = v ∧
    (PIDInputSet pid v).lastInput = pid.lastInput ∧
    (PIDInputSet pid v).output = pid.output ∧
    (PIDInputSet pid v).dispKp = pid.dispKp ∧
    (PIDInputSet pid v).dispKi = pid.dispKi ∧
    (PIDInputSet pid v).dispKd = pid.dispKd ∧
    (PIDInputSet pid v).alteredKp = pid.alteredKp ∧
    (PIDInputSet pid v).alteredKi = pid.alteredKi ∧
    (PIDInputSet pid v).alteredKd = pid.alteredKd ∧
    (PIDInputSet pid v).iTerm = pid.iTerm ∧
    (PIDInputSet pid v).sampleTime = pid.sampleTime ∧
    (PIDInputSet pid v).outMin = pid.outMin ∧
    (PIDInputSet pid v).outMax = pid.outMax ∧
    (PIDInputSet pid v).setpoint = pid.setpoint ∧
    (PIDInputSet pid v).controllerDirection = pid.controllerDirection ∧
    (PIDInputSet pid v).mode = pid.mode ∧
    PIDInputSet (PIDInputSet pid a) b = PIDInputSet pid b ∧
    computeState (PIDInputSet (PIDInputSet pid a) b) = computeState (PIDInputSet pid b) :=
  ⟨rfl, rfl, rfl, rfl, rfl, rfl, rfl, rfl, rfl, rfl, rfl, rfl, rfl, rfl, rfl, rfl,
   rfl, rfl, rfl, rfl, rfl, rfl, rfl, rfl, rfl, rfl, rfl, rfl, rfl, rfl, rfl, rfl,
   rfl, rfl⟩

end PID
